import Mathlib

/-!
Shallow embedding of `automated_push_notifications/app.py` (Project-Medimind):
a Flask façade with two handlers, `submit` (create a reminder record and
enqueue a delayed task) and `send_reminder` (callback that sends a push
notification and updates the record's status).  External collaborators
(Firestore document store, Cloud Tasks dispatch queue, FCM push sender) are
modelled as explicit state in a `World` structure; the fallible collaborator
calls (document set, task creation, push send) take Booleans injecting their
success or failure.  Times are modelled in minutes since the Unix epoch, with
the civil calendar arithmetic of `datetime` made explicit.
-/

namespace Medimind

/-- `IST_OFFSET = timedelta(hours=5, minutes=30)` from the source, in minutes. -/
def IST_OFFSET : Int := 330

/-- A civil (naive) date-time as produced by `datetime.fromisoformat` on the
`YYYY-MM-DDTHH:MM` strings the app accepts. -/
structure Civil where
  year : Int
  month : Nat
  day : Nat
  hour : Nat
  minute : Nat
  deriving DecidableEq, Repr

/-- Gregorian leap-year rule, as used by `datetime`. -/
def isLeap (y : Int) : Bool :=
  y % 4 == 0 && (y % 100 != 0 || y % 400 == 0)

/-- Days in a month of the proleptic Gregorian calendar. -/
def daysInMonth (y : Int) (m : Nat) : Nat :=
  if m == 2 then (if isLeap y then 29 else 28)
  else if m == 4 || m == 6 || m == 9 || m == 11 then 30
  else 31

/-- Days from 1970-01-01 to the given civil date (proleptic Gregorian),
the standard era-based conversion used by calendar libraries. -/
def daysFromCivil (y : Int) (m d : Nat) : Int :=
  let y' : Int := if m ≤ 2 then y - 1 else y
  let era : Int := (if 0 ≤ y' then y' else y' - 399) / 400
  let yoe : Int := y' - era * 400
  let mp : Nat := (m + 9) % 12
  let doy : Int := (153 * (mp : Int) + 2) / 5 + (d : Int) - 1
  let doe : Int := yoe * 365 + yoe / 4 - yoe / 100 + doy
  era * 146097 + doe - 719468

/-- Minutes since the Unix epoch of a civil date-time read at UTC. -/
def epochMinutes (c : Civil) : Int :=
  daysFromCivil c.year c.month c.day * 1440 + (c.hour : Int) * 60 + (c.minute : Int)

/-- Numeric value of a decimal digit character. -/
def digitVal (c : Char) : Nat := c.toNat - 48

/-- `datetime.fromisoformat` restricted to the `YYYY-MM-DDTHH:MM` shape the
app's form submits (the handler's own error message documents this format);
returns `none` on any other shape or out-of-range field, as the Python call
raises `ValueError` there. -/
def fromisoformat (s : String) : Option Civil :=
  match s.toList with
  | [y1, y2, y3, y4, '-', m1, m2, '-', d1, d2, 'T', h1, h2, ':', n1, n2] =>
    if (y1.isDigit && y2.isDigit && y3.isDigit && y4.isDigit &&
        m1.isDigit && m2.isDigit && d1.isDigit && d2.isDigit &&
        h1.isDigit && h2.isDigit && n1.isDigit && n2.isDigit) then
      let y : Int := (1000 * digitVal y1 + 100 * digitVal y2 + 10 * digitVal y3 + digitVal y4 : Nat)
      let mo : Nat := 10 * digitVal m1 + digitVal m2
      let d : Nat := 10 * digitVal d1 + digitVal d2
      let h : Nat := 10 * digitVal h1 + digitVal h2
      let n : Nat := 10 * digitVal n1 + digitVal n2
      if 1 ≤ mo && mo ≤ 12 && 1 ≤ d && d ≤ daysInMonth y mo && h ≤ 23 && n ≤ 59 then
        some ⟨y, mo, d, h, n⟩
      else none
    else none
  | _ => none

/-- A reminder document as written by `submit` and read by `send_reminder`:
`{name, medicine, reminder_time, status, fcm_token}` (the server-side
`created_at` timestamp carries no logic and is omitted).  `fcm_token` is
`Option` because `data.get("fcm_token")` yields `None` when absent. -/
structure ReminderRecord where
  name : String
  medicine : String
  reminder_time : Int
  status : String
  fcm_token : Option String
  deriving DecidableEq, Repr

/-- The reminders collection: an association list from document id to record. -/
abbrev Store := List (String × ReminderRecord)

/-- `db.collection("reminders").document(id).get()`: first binding wins. -/
def storeGet : Store → String → Option ReminderRecord
  | [], _ => none
  | (k, r) :: rest, i => if k = i then some r else storeGet rest i

/-- `doc_ref.update({"status": st})`: update the status of every binding of the id. -/
def storeSetStatus : Store → String → String → Store
  | [], _, _ => []
  | (k, r) :: rest, i, st =>
    if k = i then (k, { r with status := st }) :: storeSetStatus rest i st
    else (k, r) :: storeSetStatus rest i st

/-- `doc_ref.delete()`: remove every binding of the id. -/
def storeDelete : Store → String → Store
  | [], _ => []
  | (k, r) :: rest, i =>
    if k = i then storeDelete rest i else (k, r) :: storeDelete rest i

/-- A task handed to the Cloud Tasks client: POST target, body (the document
id), and schedule time (epoch minutes, UTC). -/
structure CloudTask where
  relative_uri : String
  body : String
  schedule_time : Int
  deriving DecidableEq, Repr

/-- A push notification handed to `messaging.send`. -/
structure PushMessage where
  token : String
  title : String
  body : String
  deriving DecidableEq, Repr

/-- An HTTP response: body text and status code. -/
structure HttpResponse where
  body : String
  code : Nat
  deriving DecidableEq, Repr

/-- The observable state touched by the handlers: the reminders collection,
the tasks enqueued so far, the pushes sent so far, and a counter from which
fresh Firestore document ids are drawn. -/
structure World where
  store : Store
  tasks : List CloudTask
  pushes : List PushMessage
  nextId : Nat
  deriving DecidableEq, Repr

/-- The store-assigned id of `db.collection("reminders").document()`. -/
def freshId (w : World) : String := "doc" ++ toString w.nextId

/-- Status of the record bound to an id, if any. -/
def statusOf (w : World) (i : String) : Option String :=
  (storeGet w.store i).map (fun r => r.status)

/-- Python's `str.strip()`: drop leading and trailing whitespace. -/
def strip (s : String) : String :=
  ⟨((s.toList.dropWhile Char.isWhitespace).reverse.dropWhile Char.isWhitespace).reverse⟩

/-- The JSON body of a `/submit` request: each field `Option` because
`data.get(field, "")` defaults missing keys to the empty string. -/
structure SubmitData where
  name : Option String
  medicine : Option String
  time : Option String
  fcm_token : Option String
  deriving DecidableEq, Repr

/-- The `/submit` handler (app.py lines 70-137).  `data` is the parsed JSON
body (`none` models a request with no JSON).  `now` is
`datetime.datetime.now(UTC)` in epoch minutes.  `dbFail` injects a Firestore
`set` failure, `taskFail` a Cloud Tasks `create_task` failure.  Returns the
HTTP response and the updated world. -/
def submit (w : World) (data : Option SubmitData) (now : Int)
    (dbFail taskFail : Bool) : HttpResponse × World :=
  match data with
  | none => (⟨"No JSON data received.", 400⟩, w)
  | some d =>
    let name := strip (d.name.getD "")
    let medicine := strip (d.medicine.getD "")
    let time_str := strip (d.time.getD "")
    let fcm_token := strip (d.fcm_token.getD "")
    if name = "" ∨ medicine = "" ∨ time_str = "" ∨ fcm_token = "" then
      (⟨"All fields (including token) are required!", 400⟩, w)
    else
      match fromisoformat time_str with
      | none => (⟨"Invalid time format! Use YYYY-MM-DDTHH:MM", 400⟩, w)
      | some naive_time =>
        let reminder_time := epochMinutes naive_time - IST_OFFSET
        if reminder_time ≤ now then
          (⟨"Reminder time must be in the future!", 400⟩, w)
        else if dbFail then
          (⟨"Database error. Please try again.", 500⟩, w)
        else
          let docId := freshId w
          let record : ReminderRecord :=
            ⟨name, medicine, reminder_time, "scheduled", some fcm_token⟩
          let w1 : World :=
            { w with store := (docId, record) :: w.store, nextId := w.nextId + 1 }
          if taskFail then
            (⟨"Scheduling error. Please try again.", 500⟩,
             { w1 with store := storeDelete w1.store docId })
          else
            (⟨"Reminder set for " ++ name ++ "!", 200⟩,
             { w1 with tasks :=
                 w1.tasks ++ [⟨"/send-reminder", docId, reminder_time⟩] })

/-- The `/send-reminder` handler (app.py lines 139-193).  `docId` is the raw
request body; `pushFail` injects a `messaging.send` failure.  Note the token
is read from the dict fetched before the `"processing"` update, exactly as in
the source. -/
def send_reminder (w : World) (docId : String) (pushFail : Bool) :
    HttpResponse × World :=
  match storeGet w.store docId with
  | none => (⟨"Document not found", 404⟩, w)
  | some data =>
    if data.status = "completed" then
      (⟨"Already processed", 200⟩, w)
    else
      let w1 : World := { w with store := storeSetStatus w.store docId "processing" }
      match data.fcm_token with
      | none => (⟨"No FCM token found for this reminder.", 400⟩, w1)
      | some tok =>
        if tok = "" then
          (⟨"No FCM token found for this reminder.", 400⟩, w1)
        else if pushFail then
          (⟨"Notification failed", 500⟩,
           { w1 with store := storeSetStatus w1.store docId "failed" })
        else
          (⟨"Reminder sent", 200⟩,
           { w1 with
             pushes := w1.pushes ++
               [⟨tok, "💊 Medicine Reminder",
                 "Hi " ++ data.name ++ "! Time to take " ++ data.medicine⟩],
             store := storeSetStatus w1.store docId "completed" })

/-! Concrete sample data for witnesses and counterexamples. -/

/-- An empty world. -/
def wEmpty : World := ⟨[], [], [], 0⟩

/-- The spec's worked example submission. -/
def dAsha : SubmitData :=
  ⟨some "Asha", some "Metformin", some "2030-01-01T09:00", some "tok-asha"⟩

/-- A scheduled record with a token, ready for its callback. -/
def recSched : ReminderRecord := ⟨"Asha", "Metformin", 31557810, "scheduled", some "tok-asha"⟩

/-- A world holding one scheduled reminder under id `"d1"`. -/
def wSched : World := ⟨[("d1", recSched)], [], [], 1⟩

/-- A record whose delivery already failed, with no token stored. -/
def recFailed : ReminderRecord := ⟨"Ravi", "Aspirin", 0, "failed", none⟩

/-- A world holding one failed reminder under id `"d2"`. -/
def wFailed : World := ⟨[("d2", recFailed)], [], [], 1⟩

/-- A scheduled record lacking an `fcm_token` field. -/
def recNoTok : ReminderRecord := ⟨"Mina", "Ibuprofen", 0, "scheduled", none⟩

/-- A world holding one token-less scheduled reminder under id `"d3"`. -/
def wNoTok : World := ⟨[("d3", recNoTok)], [], [], 1⟩

/-- A submission whose JSON lacks the `fcm_token` field. -/
def dNoField : SubmitData :=
  ⟨some "Asha", some "Metformin", some "2030-01-01T09:00", none⟩

/-! Store lemmas. -/

/-- Reading an id after updating its status yields the old record with the new status. -/
theorem storeGet_setStatus (s : Store) (i st : String) :
    storeGet (storeSetStatus s i st) i =
      (storeGet s i).map (fun r => { r with status := st }) := by
  induction s with
  | nil => rfl
  | cons kv rest ih =>
    obtain ⟨k, r⟩ := kv
    by_cases h : k = i
    · subst h
      simp [storeSetStatus, storeGet]
    · simp [storeSetStatus, storeGet, if_neg h, ih]

/-- Deleting an id that is not bound leaves the store unchanged. -/
theorem storeDelete_of_get_none (s : Store) (i : String)
    (h : storeGet s i = none) : storeDelete s i = s := by
  induction s with
  | nil => rfl
  | cons kv rest ih =>
    obtain ⟨k, r⟩ := kv
    by_cases hk : k = i
    · simp [storeGet, hk] at h
    · simp only [storeGet, if_neg hk] at h
      simp [storeDelete, hk, ih h]

/-! Claim theorems. -/

/-- C7: if any required field (name, medicine, time, fcm_token) is empty or
missing after stripping, the submit handler returns HTTP 400 and the world is
unchanged: no record created, no task enqueued, no push sent — regardless of
whether the collaborators would have failed. -/
theorem submit_missing_field_rejected (w : World) (d : SubmitData) (now : Int)
    (dbFail taskFail : Bool)
    (h : strip (d.name.getD "") = "" ∨ strip (d.medicine.getD "") = "" ∨
         strip (d.time.getD "") = "" ∨ strip (d.fcm_token.getD "") = "") :
    submit w (some d) now dbFail taskFail =
      (⟨"All fields (including token) are required!", 400⟩, w) := by
  simp only [submit]
  rw [if_pos h]

/-- Witness for C7: a submission lacking the fcm_token field is rejected with
HTTP 400 and an empty world stays empty. -/
theorem submit_missing_field_rejected_witness :
    (strip (dNoField.name.getD "") = "" ∨ strip (dNoField.medicine.getD "") = "" ∨
     strip (dNoField.time.getD "") = "" ∨ strip (dNoField.fcm_token.getD "") = "") ∧
    submit wEmpty (some dNoField) 0 false false =
      (⟨"All fields (including token) are required!", 400⟩, wEmpty) :=
  ⟨by decide,
   submit_missing_field_rejected wEmpty dNoField 0 false false (by decide)⟩

/-- C8: a callback naming an identifier with no record returns HTTP 404 and
leaves the world unchanged: no store write, no push send. -/
theorem callback_not_found (w : World) (i : String) (pushFail : Bool)
    (h : storeGet w.store i = none) :
    send_reminder w i pushFail = (⟨"Document not found", 404⟩, w) := by
  simp only [send_reminder, h]

/-- Witness for C8: a callback on an empty store returns 404 unchanged. -/
theorem callback_not_found_witness :
    storeGet wEmpty.store "nope" = none ∧
    send_reminder wEmpty "nope" false = (⟨"Document not found", 404⟩, wEmpty) :=
  ⟨by decide, callback_not_found wEmpty "nope" false (by decide)⟩

/-- C5: a submission whose computed UTC instant is at or before the current
UTC time is rejected with HTTP 400 and the world is unchanged: no record
created, no task enqueued. -/
theorem submit_past_time_rejected (w : World) (d : SubmitData) (now : Int)
    (dbFail taskFail : Bool) (c : Civil)
    (hname : strip (d.name.getD "") ≠ "")
    (hmed : strip (d.medicine.getD "") ≠ "")
    (htime : strip (d.time.getD "") ≠ "")
    (htok : strip (d.fcm_token.getD "") ≠ "")
    (hp : fromisoformat (strip (d.time.getD "")) = some c)
    (hle : epochMinutes c - IST_OFFSET ≤ now) :
    submit w (some d) now dbFail taskFail =
      (⟨"Reminder time must be in the future!", 400⟩, w) := by
  have hcond : ¬(strip (d.name.getD "") = "" ∨ strip (d.medicine.getD "") = "" ∨
      strip (d.time.getD "") = "" ∨ strip (d.fcm_token.getD "") = "") := by
    push_neg
    exact ⟨hname, hmed, htime, htok⟩
  simp only [submit, if_neg hcond, hp, if_pos hle]

/-- Witness for C5: the example submission evaluated with "now" already past
its reminder instant is rejected with 400 and no state change. -/
theorem submit_past_time_rejected_witness :
    strip (dAsha.name.getD "") ≠ "" ∧ strip (dAsha.medicine.getD "") ≠ "" ∧
    strip (dAsha.time.getD "") ≠ "" ∧ strip (dAsha.fcm_token.getD "") ≠ "" ∧
    fromisoformat (strip (dAsha.time.getD "")) = some ⟨2030, 1, 1, 9, 0⟩ ∧
    epochMinutes ⟨2030, 1, 1, 9, 0⟩ - IST_OFFSET ≤ (40000000 : Int) ∧
    submit wEmpty (some dAsha) 40000000 false false =
      (⟨"Reminder time must be in the future!", 400⟩, wEmpty) :=
  ⟨by decide, by decide, by decide, by decide, by decide, by decide,
   submit_past_time_rejected wEmpty dAsha 40000000 false false ⟨2030, 1, 1, 9, 0⟩
     (by decide) (by decide) (by decide) (by decide) (by decide) (by decide)⟩

/-- C10: a callback on an existing record that is not completed and stores no
fcm_token returns HTTP 400 after setting the record's status to "processing",
and leaves it there. -/
theorem callback_missing_token_processing (w : World) (i : String)
    (r : ReminderRecord) (pushFail : Bool)
    (h : storeGet w.store i = some r) (hst : r.status ≠ "completed")
    (htk : r.fcm_token = none) :
    (send_reminder w i pushFail).1 = ⟨"No FCM token found for this reminder.", 400⟩ ∧
    statusOf (send_reminder w i pushFail).2 i = some "processing" := by
  simp only [send_reminder, h, if_neg hst, htk, statusOf]
  exact ⟨trivial, by rw [storeGet_setStatus, h]; rfl⟩

/-- Witness for C10: the token-less scheduled record is left at "processing"
with a 400 response. -/
theorem callback_missing_token_processing_witness :
    storeGet wNoTok.store "d3" = some recNoTok ∧
    recNoTok.status ≠ "completed" ∧ recNoTok.fcm_token = none ∧
    ((send_reminder wNoTok "d3" false).1 =
        ⟨"No FCM token found for this reminder.", 400⟩ ∧
     statusOf (send_reminder wNoTok "d3" false).2 "d3" = some "processing") :=
  ⟨by decide, by decide, by decide,
   callback_missing_token_processing wNoTok "d3" recNoTok false
     (by decide) (by decide) (by decide)⟩

/-- C2 counterexample: the callback handler moves a record whose status is
"failed" back to "processing" (the idempotence guard checks only
"completed"), so the claimed monotonic transition relation is violated. -/
theorem failed_status_reprocessed :
    statusOf wFailed "d2" = some "failed" ∧
    statusOf (send_reminder wFailed "d2" false).2 "d2" = some "processing" := by
  exact ⟨rfl, rfl⟩

/-- C1: a submission with all four fields non-empty, a parseable time, and a
computed UTC instant strictly in the future creates exactly one record with
status "scheduled", enqueues exactly one task whose body is that record's id
and whose schedule time is the computed UTC instant, sends no push, and
returns success. -/
theorem submit_success (w : World) (d : SubmitData) (now : Int) (c : Civil)
    (hname : strip (d.name.getD "") ≠ "")
    (hmed : strip (d.medicine.getD "") ≠ "")
    (htime : strip (d.time.getD "") ≠ "")
    (htok : strip (d.fcm_token.getD "") ≠ "")
    (hp : fromisoformat (strip (d.time.getD "")) = some c)
    (hfut : now < epochMinutes c - IST_OFFSET) :
    (submit w (some d) now false false).1.code = 200 ∧
    (submit w (some d) now false false).2.store =
      (freshId w,
        ⟨strip (d.name.getD ""), strip (d.medicine.getD ""),
         epochMinutes c - IST_OFFSET, "scheduled",
         some (strip (d.fcm_token.getD ""))⟩) :: w.store ∧
    (submit w (some d) now false false).2.tasks =
      w.tasks ++ [⟨"/send-reminder", freshId w, epochMinutes c - IST_OFFSET⟩] ∧
    (submit w (some d) now false false).2.pushes = w.pushes := by
  have hcond : ¬(strip (d.name.getD "") = "" ∨ strip (d.medicine.getD "") = "" ∨
      strip (d.time.getD "") = "" ∨ strip (d.fcm_token.getD "") = "") := by
    push_neg
    exact ⟨hname, hmed, htime, htok⟩
  simp only [submit, if_neg hcond, hp, if_neg (not_le.mpr hfut)]
  simp

/-- Witness for C1: the spec's example submission on an empty world. -/
theorem submit_success_witness :
    strip (dAsha.name.getD "") ≠ "" ∧ strip (dAsha.medicine.getD "") ≠ "" ∧
    strip (dAsha.time.getD "") ≠ "" ∧ strip (dAsha.fcm_token.getD "") ≠ "" ∧
    fromisoformat (strip (dAsha.time.getD "")) = some ⟨2030, 1, 1, 9, 0⟩ ∧
    (0 : Int) < epochMinutes ⟨2030, 1, 1, 9, 0⟩ - IST_OFFSET ∧
    (submit wEmpty (some dAsha) 0 false false).1.code = 200 :=
  ⟨by decide, by decide, by decide, by decide, by decide, by decide,
   (submit_success wEmpty dAsha 0 ⟨2030, 1, 1, 9, 0⟩ (by decide) (by decide)
      (by decide) (by decide) (by decide) (by decide)).1⟩

/-- C4: if the record is persisted but the task enqueue fails, the submit
handler deletes the just-created record and returns HTTP 500: the store and
task list end exactly as they started, so no "scheduled" orphan remains. -/
theorem submit_enqueue_fail_compensates (w : World) (d : SubmitData) (now : Int)
    (c : Civil)
    (hname : strip (d.name.getD "") ≠ "")
    (hmed : strip (d.medicine.getD "") ≠ "")
    (htime : strip (d.time.getD "") ≠ "")
    (htok : strip (d.fcm_token.getD "") ≠ "")
    (hp : fromisoformat (strip (d.time.getD "")) = some c)
    (hfut : now < epochMinutes c - IST_OFFSET)
    (hfresh : storeGet w.store (freshId w) = none) :
    (submit w (some d) now false true).1.code = 500 ∧
    (submit w (some d) now false true).2.store = w.store ∧
    (submit w (some d) now false true).2.tasks = w.tasks := by
  have hcond : ¬(strip (d.name.getD "") = "" ∨ strip (d.medicine.getD "") = "" ∨
      strip (d.time.getD "") = "" ∨ strip (d.fcm_token.getD "") = "") := by
    push_neg
    exact ⟨hname, hmed, htime, htok⟩
  simp only [submit, if_neg hcond, hp, if_neg (not_le.mpr hfut)]
  simp [storeDelete, storeDelete_of_get_none _ _ hfresh]

/-- Witness for C4: the example submission with an injected enqueue failure
leaves the empty world's store and task list empty and reports 500. -/
theorem submit_enqueue_fail_compensates_witness :
    strip (dAsha.name.getD "") ≠ "" ∧ strip (dAsha.medicine.getD "") ≠ "" ∧
    strip (dAsha.time.getD "") ≠ "" ∧ strip (dAsha.fcm_token.getD "") ≠ "" ∧
    fromisoformat (strip (dAsha.time.getD "")) = some ⟨2030, 1, 1, 9, 0⟩ ∧
    (0 : Int) < epochMinutes ⟨2030, 1, 1, 9, 0⟩ - IST_OFFSET ∧
    storeGet wEmpty.store (freshId wEmpty) = none ∧
    (submit wEmpty (some dAsha) 0 false true).2.store = wEmpty.store :=
  ⟨by decide, by decide, by decide, by decide, by decide, by decide, rfl,
   (submit_enqueue_fail_compensates wEmpty dAsha 0 ⟨2030, 1, 1, 9, 0⟩ (by decide)
      (by decide) (by decide) (by decide) (by decide) (by decide) rfl).2.1⟩

/-- C6: a parseable time string is read as a civil time at the fixed offset
UTC+5:30 and the equivalent UTC instant is stored as the record's
reminder_time; in particular "2030-01-01T09:00" parses, and its UTC instant
is the instant of civil 2030-01-01T03:30 read at UTC. -/
theorem submit_ist_conversion (w : World) (d : SubmitData) (now : Int) (c : Civil)
    (hname : strip (d.name.getD "") ≠ "")
    (hmed : strip (d.medicine.getD "") ≠ "")
    (htime : strip (d.time.getD "") ≠ "")
    (htok : strip (d.fcm_token.getD "") ≠ "")
    (hp : fromisoformat (strip (d.time.getD "")) = some c)
    (hfut : now < epochMinutes c - IST_OFFSET) :
    (storeGet (submit w (some d) now false false).2.store (freshId w)).map
        (fun r => r.reminder_time) = some (epochMinutes c - IST_OFFSET) ∧
    fromisoformat "2030-01-01T09:00" = some ⟨2030, 1, 1, 9, 0⟩ ∧
    epochMinutes ⟨2030, 1, 1, 9, 0⟩ - IST_OFFSET = epochMinutes ⟨2030, 1, 1, 3, 30⟩ := by
  have hcond : ¬(strip (d.name.getD "") = "" ∨ strip (d.medicine.getD "") = "" ∨
      strip (d.time.getD "") = "" ∨ strip (d.fcm_token.getD "") = "") := by
    push_neg
    exact ⟨hname, hmed, htime, htok⟩
  refine ⟨?_, by decide, by decide⟩
  simp only [submit, if_neg hcond, hp, if_neg (not_le.mpr hfut)]
  simp [storeGet]

/-- Witness for C6: the stored reminder_time of the example submission. -/
theorem submit_ist_conversion_witness :
    strip (dAsha.name.getD "") ≠ "" ∧ strip (dAsha.medicine.getD "") ≠ "" ∧
    strip (dAsha.time.getD "") ≠ "" ∧ strip (dAsha.fcm_token.getD "") ≠ "" ∧
    fromisoformat (strip (dAsha.time.getD "")) = some ⟨2030, 1, 1, 9, 0⟩ ∧
    (0 : Int) < epochMinutes ⟨2030, 1, 1, 9, 0⟩ - IST_OFFSET ∧
    (storeGet (submit wEmpty (some dAsha) 0 false false).2.store (freshId wEmpty)).map
        (fun r => r.reminder_time) = some (epochMinutes ⟨2030, 1, 1, 9, 0⟩ - IST_OFFSET) :=
  ⟨by decide, by decide, by decide, by decide, by decide, by decide,
   (submit_ist_conversion wEmpty dAsha 0 ⟨2030, 1, 1, 9, 0⟩ (by decide) (by decide)
      (by decide) (by decide) (by decide) (by decide)).1⟩

/-- C3: a first callback on a not-yet-completed record with a token succeeds
and sends exactly one push; a second sequential callback for the same id
finds the record completed and returns HTTP 200 "Already processed" without
sending or writing anything, so the pair produces exactly one push. -/
theorem callback_idempotent (w : World) (i : String) (r : ReminderRecord)
    (t : String)
    (h : storeGet w.store i = some r) (hst : r.status ≠ "completed")
    (htk : r.fcm_token = some t) (ht : t ≠ "") :
    (send_reminder w i false).1.code = 200 ∧
    (send_reminder w i false).2.pushes = w.pushes ++
      [⟨t, "💊 Medicine Reminder",
        "Hi " ++ r.name ++ "! Time to take " ++ r.medicine⟩] ∧
    send_reminder (send_reminder w i false).2 i false =
      (⟨"Already processed", 200⟩, (send_reminder w i false).2) := by
  simp [send_reminder, h, hst, htk, ht, storeGet_setStatus]

/-- Witness for C3: both sequential callbacks on the scheduled sample world. -/
theorem callback_idempotent_witness :
    storeGet wSched.store "d1" = some recSched ∧
    recSched.status ≠ "completed" ∧
    recSched.fcm_token = some "tok-asha" ∧
    ("tok-asha" : String) ≠ "" ∧
    send_reminder (send_reminder wSched "d1" false).2 "d1" false =
      (⟨"Already processed", 200⟩, (send_reminder wSched "d1" false).2) :=
  ⟨by decide, by decide, by decide, by decide,
   (callback_idempotent wSched "d1" recSched "tok-asha" (by decide) (by decide)
      (by decide) (by decide)).2.2⟩

/-- C9: when the callback reaches the push-send step, a successful send marks
the record "completed" and returns HTTP 200, and a failed send marks it
"failed" and returns HTTP 500 without recording a push. -/
theorem callback_delivery_outcome (w : World) (i : String) (r : ReminderRecord)
    (t : String)
    (h : storeGet w.store i = some r) (hst : r.status ≠ "completed")
    (htk : r.fcm_token = some t) (ht : t ≠ "") :
    ((send_reminder w i false).1 = ⟨"Reminder sent", 200⟩ ∧
     statusOf (send_reminder w i false).2 i = some "completed") ∧
    ((send_reminder w i true).1.code = 500 ∧
     statusOf (send_reminder w i true).2 i = some "failed" ∧
     (send_reminder w i true).2.pushes = w.pushes) := by
  simp [send_reminder, h, hst, htk, ht, statusOf, storeGet_setStatus]

/-- Witness for C9: delivery success and failure on the scheduled sample world. -/
theorem callback_delivery_outcome_witness :
    storeGet wSched.store "d1" = some recSched ∧
    recSched.status ≠ "completed" ∧
    recSched.fcm_token = some "tok-asha" ∧
    ("tok-asha" : String) ≠ "" ∧
    ((send_reminder wSched "d1" false).1 = ⟨"Reminder sent", 200⟩ ∧
     statusOf (send_reminder wSched "d1" false).2 "d1" = some "completed") :=
  ⟨by decide, by decide, by decide, by decide,
   (callback_delivery_outcome wSched "d1" recSched "tok-asha" (by decide)
      (by decide) (by decide) (by decide)).1⟩

/-- C2 (amended): the callback never moves a "completed" record (it returns
without touching the world), and any record it does process ends the
invocation at "processing", "completed" or "failed"; a "failed" record,
however, can be reprocessed and set back to "processing". -/
theorem status_transitions_amended (w : World) (i : String) (pf : Bool)
    (r : ReminderRecord) (h : storeGet w.store i = some r) :
    (r.status = "completed" → (send_reminder w i pf).2 = w) ∧
    (r.status ≠ "completed" →
      statusOf (send_reminder w i pf).2 i = some "processing" ∨
      statusOf (send_reminder w i pf).2 i = some "completed" ∨
      statusOf (send_reminder w i pf).2 i = some "failed") := by
  constructor
  · intro hc
    simp [send_reminder, h, hc]
  · intro hc
    rcases htk : r.fcm_token with _ | tok
    · left
      simp [send_reminder, h, hc, htk, statusOf, storeGet_setStatus]
    · by_cases he : tok = ""
      · left
        simp [send_reminder, h, hc, htk, he, statusOf, storeGet_setStatus]
      · cases pf
        · right; left
          simp [send_reminder, h, hc, htk, he, statusOf, storeGet_setStatus]
        · right; right
          simp [send_reminder, h, hc, htk, he, statusOf, storeGet_setStatus]

/-- Witness for C2 (amended): the scheduled sample record ends the callback
in one of the three forward statuses. -/
theorem status_transitions_amended_witness :
    storeGet wSched.store "d1" = some recSched ∧
    ((recSched.status = "completed" →
        (send_reminder wSched "d1" false).2 = wSched) ∧
     (recSched.status ≠ "completed" →
        statusOf (send_reminder wSched "d1" false).2 "d1" = some "processing" ∨
        statusOf (send_reminder wSched "d1" false).2 "d1" = some "completed" ∨
        statusOf (send_reminder wSched "d1" false).2 "d1" = some "failed")) :=
  ⟨by decide,
   status_transitions_amended wSched "d1" false recSched (by decide)⟩

end Medimind
